import Mathlib

/-!
# Verification of the CareerAgent scoring and matching engine

Shallow embedding of the scoring core of the repository
(`backend/agents/scoring_agent.py`, `backend/utils/skill_matcher.py`,
`backend/utils/confidence_calculator.py`, `backend/utils/reputation_score.py`,
and the relevant parts of `backend/routers/jobs_router.py`).

Python floats are modelled as exact rationals (`ℚ`); `round(x, 2)` is
modelled as rounding `x * 100` to the nearest integer (ties upward, matching
CPython's observed behaviour on the concrete values that appear in this
development) and dividing back.  Python strings are Lean `String`s; the
string primitives the code uses (`in`, `.lower()`, `.strip()`,
`.split(",")`, `sorted`, lexicographic `<`) are given explicit structural
implementations over the underlying character lists so that every
definition evaluates on concrete inputs.  Python `set`s of strings are
modelled as duplicate-free lists (`List.dedup`), with set intersection as
`List.inter`.
-/

namespace CareerAgent

/-- Python `s.lower()` (the skill/domain/company strings in play are ASCII,
where `Char.toLower` agrees with Python). -/
def pyLower (s : String) : String := ⟨s.data.map Char.toLower⟩

/-- Python `s.strip()`: remove leading and trailing whitespace. -/
def pyStrip (s : String) : String :=
  ⟨((s.data.dropWhile Char.isWhitespace).reverse.dropWhile
      Char.isWhitespace).reverse⟩

/-- Python truthiness test `if s.strip()` for a string. -/
def pyStripTruthy (s : String) : Bool := pyStrip s ≠ ""

/-- Python `sub in s` substring containment test. -/
def pyIn (sub s : String) : Bool := decide (sub.data <:+: s.data)

/-- Helper for `pySplitComma`: accumulates the current piece (reversed). -/
def pySplitCommaAux : List Char → List Char → List String
  | [], acc => [⟨acc.reverse⟩]
  | c :: rest, acc =>
      if c = ',' then ⟨acc.reverse⟩ :: pySplitCommaAux rest []
      else pySplitCommaAux rest (c :: acc)

/-- Python `s.split(",")`: split at every comma, keeping empty pieces. -/
def pySplitComma (s : String) : List String := pySplitCommaAux s.data []

/-- Lexicographic comparison of character lists by code point, as Python
compares strings. -/
def charListLe : List Char → List Char → Bool
  | [], _ => true
  | _ :: _, [] => false
  | a :: as, b :: bs => if a < b then true else if b < a then false else charListLe as bs

/-- Python `s <= t` on strings. -/
def strLe (s t : String) : Bool := charListLe s.data t.data

/-- Insert a string into a sorted list of strings. -/
def insertSorted (s : String) : List String → List String
  | [] => [s]
  | t :: ts => if strLe s t then s :: t :: ts else t :: insertSorted s ts

/-- Python `sorted` on a list of strings (insertion sort). -/
def sortStrings : List String → List String
  | [] => []
  | s :: ss => insertSorted s (sortStrings ss)

/-- Python `round(x, 2)`: round to two decimal places. -/
def round2 (x : ℚ) : ℚ := ((⌊x * 100 + 1 / 2⌋ : ℤ) : ℚ) / 100

/-- `set(s.strip().lower() for s in l if s.strip())` — the normalized skill
set built inside `match_skills`, as a duplicate-free list. -/
def normalizeSkills (l : List String) : List String :=
  ((l.filter (fun s => pyStripTruthy s)).map (fun s => pyLower (pyStrip s))).dedup

/-- `skill_matcher.match_skills`: compare user skills against job-required
skills.  Returns the alphabetically sorted common skills and the match
score. -/
def match_skills (user_skills required_skills : List String) :
    List String × ℚ :=
  if required_skills = [] then ([], 50)
  else
    let user_set := normalizeSkills user_skills
    let req_set := normalizeSkills required_skills
    let common := sortStrings (user_set ∩ req_set)
    let score : ℚ :=
      if req_set ≠ [] then ((common.length : ℚ) / req_set.length) * 100 else 50
    (common, round2 score)

/-- `confidence_calculator.calculate_confidence`: weighted composite score
`0.5 * skill_match + 0.3 * domain_match + 0.2 * experience_match`. -/
def calculate_confidence (skill_match domain_match experience_match : ℚ) : ℚ :=
  0.5 * skill_match + 0.3 * domain_match + 0.2 * experience_match

/-- `reputation_score._TIER_1_KEYWORDS`. -/
def TIER_1_KEYWORDS : List String :=
  ["iit", "iisc", "isro", "drdo", "google", "microsoft", "apple", "meta",
   "amazon", "nvidia", "openai", "deepmind"]

/-- `reputation_score._TIER_2_KEYWORDS`. -/
def TIER_2_KEYWORDS : List String :=
  ["ibm", "oracle", "sap", "intel", "cisco", "adobe", "salesforce",
   "samsung", "sony", "tcs", "infosys", "wipro", "hcl", "accenture",
   "deloitte", "ey", "kpmg", "pwc", "mckinsey", "bcg", "bain",
   "goldman sachs", "morgan stanley", "jpmorgan"]

/-- `reputation_score._TIER_3_KEYWORDS`. -/
def TIER_3_KEYWORDS : List String :=
  ["startup", "funded", "ycombinator", "y combinator", "sequoia",
   "series a", "series b", "backed", "venture"]

/-- `reputation_score.get_reputation_score`: keyword-tiered company
reputation estimate. -/
def get_reputation_score (company : String) : ℚ :=
  let name := pyLower (pyStrip company)
  if TIER_1_KEYWORDS.any (fun kw => pyIn kw name) then 95
  else if TIER_2_KEYWORDS.any (fun kw => pyIn kw name) then 85
  else if TIER_3_KEYWORDS.any (fun kw => pyIn kw name) then 75
  else 60

/-- `scoring_agent._domain_match_score`: simple domain overlap score (0-100).
The Python source has an unreachable second `if profile_domains` guard on the
return expression; the first guard already rules the empty case out. -/
def _domain_match_score (profile_domains : List String) (job_skills_str : String) : ℚ :=
  if profile_domains = [] then 50
  else
    let job_lower := pyLower job_skills_str
    let nMatches := profile_domains.countP (fun d => pyIn (pyLower d) job_lower)
    ((nMatches : ℚ) / profile_domains.length) * 100

/-- `scoring_agent._experience_match_score`: how well the experience level
fits the role. -/
def _experience_match_score (profile_level role : String) : ℚ :=
  let role_lower := pyLower role
  let level := pyLower profile_level
  if ["intern", "junior", "trainee", "fresher"].any (fun kw => pyIn kw role_lower) then
    if level = "entry" then 100 else 60
  else if ["senior", "lead", "principal", "staff"].any (fun kw => pyIn kw role_lower) then
    if level = "senior" then 100 else 50
  else 80

/-- `scoring_agent._categorize`: categorize based on confidence score. -/
def _categorize (confidence : ℚ) : String :=
  if confidence > 80 then "High Priority"
  else if confidence ≥ 60 then "Good Match"
  else "Stretch"

/-- `scoring_agent.score_jobs`'s `MANUAL_STATUSES` set. -/
def MANUAL_STATUSES : List String :=
  ["Applied", "Interview", "Rejected", "Accepted", "Emailed", "Not Applied"]

/-- The fields of a `Job` row (`database/models.py`) that the scoring core
reads and writes. -/
structure Job where
  company : String
  role : String
  required_skills : String
  status : String
  confidence_score : ℚ
  reputation_score : ℚ
deriving DecidableEq, Repr

/-- The profile dict produced by `jobs_router._get_profile`. -/
structure Profile where
  skills : List String
  domains : List String
  experience_level : String
  preferred_roles : List String
deriving DecidableEq, Repr

/-- `[s.strip().lower() for s in job.required_skills.split(",") if s.strip()]`
from the `score_jobs` loop. -/
def jobRequiredSkills (job : Job) : List String :=
  ((pySplitComma job.required_skills).filter (fun s => pyStripTruthy s)).map
    (fun s => pyLower (pyStrip s))

/-- The skill score `score_jobs` computes for one job:
`match_skills(user_skills, required)` with lowercased profile skills. -/
def jobSkillScore (p : Profile) (job : Job) : ℚ :=
  (match_skills (p.skills.map pyLower) (jobRequiredSkills job)).2

/-- The (unrounded) confidence `score_jobs` computes for one job. -/
def jobConfidence (p : Profile) (job : Job) : ℚ :=
  calculate_confidence (jobSkillScore p job)
    (_domain_match_score p.domains job.required_skills)
    (_experience_match_score p.experience_level job.role)

/-- One iteration of the `score_jobs` loop: update both scores always, and
the status only when it has not been manually changed. -/
def scoreJob (p : Profile) (job : Job) : Job :=
  { job with
    confidence_score := round2 (jobConfidence p job)
    reputation_score := round2 (get_reputation_score job.company)
    status :=
      if job.status ∈ MANUAL_STATUSES then job.status
      else _categorize (jobConfidence p job) }

/-- `scoring_agent.score_jobs`: score ALL jobs against the current profile;
returns the updated rows and the number of jobs scored. -/
def score_jobs (p : Profile) (jobs : List Job) : List Job × Nat :=
  (jobs.map (scoreJob p), jobs.length)

/-- The database state the jobs router sees: the `ResumeProfile` rows and the
`Job` rows.  A `ResumeProfile` row is modelled by the parsed fields
`_get_profile` extracts from it. -/
structure DB where
  profiles : List Profile
  jobs : List Job
deriving DecidableEq, Repr

/-- `jobs_router._get_profile`: the first stored resume profile, if any. -/
def _get_profile (db : DB) : Option Profile := db.profiles.head?

/-- The JSON body the `/run-search` endpoint returns: either an error string,
or the success message counts. -/
structure RunSearchResponse where
  error : Option String
  new_jobs_count : Option Nat
  scored_count : Option Nat
deriving DecidableEq, Repr

/-- `jobs_router.run_search`: trigger the search + scoring pipeline.  The
search collaborator `search_agent.search_jobs` is outside the scoring core,
so it is passed as a parameter returning the newly found jobs and the full
job table after insertion. -/
def run_search (search : Profile → List Job → List Job × List Job) (db : DB) :
    RunSearchResponse × DB :=
  match _get_profile db with
  | none =>
      ({ error := some "No resume profile found. Please upload a resume first."
         new_jobs_count := none, scored_count := none }, db)
  | some p =>
      let (new_jobs, all_jobs) := search p db.jobs
      let (scored_jobs, scored) := score_jobs p all_jobs
      ({ error := none, new_jobs_count := some new_jobs.length
         scored_count := some scored }, { db with jobs := scored_jobs })

/-! ## Helper lemmas about the string-sorting and rounding primitives -/

lemma round2_intCast (n : ℤ) : round2 ((n : ℚ)) = n := by
  unfold round2
  rw [show ((n : ℚ) * 100) = ((n * 100 : ℤ) : ℚ) by push_cast; ring]
  rw [add_comm, Int.floor_add_int]
  rw [show ⌊(1 : ℚ) / 2⌋ = 0 by norm_num]
  push_cast
  field_simp

lemma charListLe_total (a b : List Char) :
    charListLe a b = true ∨ charListLe b a = true := by
  induction a generalizing b with
  | nil => left; rfl
  | cons x xs ih =>
    cases b with
    | nil => right; rfl
    | cons y ys =>
      rcases lt_trichotomy x y with h | h | h
      · left; simp [charListLe, h]
      · subst h
        rcases ih ys with h' | h'
        · left; simp [charListLe, lt_irrefl, h']
        · right; simp [charListLe, lt_irrefl, h']
      · right; simp [charListLe, h]

lemma charListLe_trans {a b c : List Char}
    (h1 : charListLe a b = true) (h2 : charListLe b c = true) :
    charListLe a c = true := by
  induction a generalizing b c with
  | nil => rfl
  | cons x xs ih =>
    cases b with
    | nil => simp [charListLe] at h1
    | cons y ys =>
      cases c with
      | nil => simp [charListLe] at h2
      | cons z zs =>
        rcases lt_trichotomy x y with hxy | hxy | hxy
        · rcases lt_trichotomy y z with hyz | hyz | hyz
          · simp [charListLe, lt_trans hxy hyz]
          · subst hyz; simp [charListLe, hxy]
          · simp [charListLe, hyz, asymm hyz] at h2
        · subst hxy
          rcases lt_trichotomy x z with hyz | hyz | hyz
          · simp [charListLe, hyz]
          · subst hyz
            simp only [charListLe, lt_irrefl, if_neg] at h1 h2 ⊢
            simp at h1 h2 ⊢
            exact ih h1 h2
          · simp [charListLe, hyz, asymm hyz] at h2
        · simp [charListLe, hxy, asymm hxy] at h1

lemma strLe_total (s t : String) : strLe s t = true ∨ strLe t s = true :=
  charListLe_total s.data t.data

lemma strLe_trans {s t u : String} (h1 : strLe s t = true)
    (h2 : strLe t u = true) : strLe s u = true :=
  charListLe_trans h1 h2

lemma insertSorted_perm (s : String) (l : List String) :
    List.Perm (insertSorted s l) (s :: l) := by
  induction l with
  | nil => rfl
  | cons t ts ih =>
    by_cases h : strLe s t = true
    · simp [insertSorted, h]
    · simp only [insertSorted, h, if_neg, Bool.false_eq_true, not_false_eq_true]
      exact (ih.cons t).trans (List.Perm.swap s t ts)

lemma sortStrings_perm (l : List String) : List.Perm (sortStrings l) l := by
  induction l with
  | nil => rfl
  | cons s ss ih => exact (insertSorted_perm s _).trans (ih.cons s)

lemma insertSorted_sorted (s : String) (l : List String)
    (h : l.Sorted (fun a b => strLe a b = true)) :
    (insertSorted s l).Sorted (fun a b => strLe a b = true) := by
  induction l with
  | nil => simp [insertSorted]
  | cons t ts ih =>
    rw [List.sorted_cons] at h
    obtain ⟨ht, hts⟩ := h
    by_cases hst : strLe s t = true
    · simp only [insertSorted, hst, if_pos]
      rw [List.sorted_cons]
      refine ⟨?_, List.sorted_cons.mpr ⟨ht, hts⟩⟩
      intro b hb
      rcases List.mem_cons.mp hb with rfl | hb
      · exact hst
      · exact strLe_trans hst (ht b hb)
    · simp only [insertSorted, hst, if_neg, Bool.false_eq_true, not_false_eq_true]
      rw [List.sorted_cons]
      refine ⟨?_, ih hts⟩
      intro b hb
      rcases List.mem_cons.mp ((insertSorted_perm s ts).mem_iff.mp hb) with heq | hb
      · rw [heq]
        rcases strLe_total s t with h' | h'
        · exact absurd h' hst
        · exact h'
      · exact ht b hb

lemma sortStrings_sorted (l : List String) :
    (sortStrings l).Sorted (fun a b => strLe a b = true) := by
  induction l with
  | nil => simp [sortStrings]
  | cons s ss ih => exact insertSorted_sorted s _ ih

lemma sortStrings_length (l : List String) :
    (sortStrings l).length = l.length :=
  (sortStrings_perm l).length_eq

/-! ## The claims -/

/-- C3: `match_skills` normalizes both lists to trimmed lowercase sets and
returns the matched skills (the intersection, sorted alphabetically) and the
score `|matched| / |required| * 100` rounded to 2 decimals; an empty required
list yields `([], 50.0)`; and a non-empty required set contained in the user
set scores `100.0`. -/
theorem match_skills_spec :
    (∀ U : List String, match_skills U [] = ([], 50)) ∧
    (∀ (U R : List String), R ≠ [] →
      List.Perm (match_skills U R).1 (normalizeSkills U ∩ normalizeSkills R) ∧
      ((match_skills U R).1).Sorted (fun a b => strLe a b = true) ∧
      (normalizeSkills R ≠ [] → (match_skills U R).2 =
        round2 ((((normalizeSkills U ∩ normalizeSkills R).length : ℚ) /
          (normalizeSkills R).length) * 100))) ∧
    (∀ (U R : List String), normalizeSkills R ≠ [] →
      normalizeSkills R ⊆ normalizeSkills U → (match_skills U R).2 = 100) := by
  refine ⟨fun U => rfl, ?_, ?_⟩
  · intro U R h
    refine ⟨?_, ?_, ?_⟩
    · simp only [match_skills, h, if_neg]
      simpa using sortStrings_perm _
    · simp only [match_skills, h, if_neg]
      simpa using sortStrings_sorted _
    · intro hne
      simp only [match_skills, h, hne, if_neg, ne_eq, not_false_eq_true, if_pos]
      simp [sortStrings_length]
  · intro U R hne hsub
    have hR : R ≠ [] := by
      intro h
      exact hne (by simp [normalizeSkills, h])
    have hint_sub : (normalizeSkills U ∩ normalizeSkills R) ⊆ normalizeSkills R := by
      intro a ha
      exact (List.mem_inter_iff.mp ha).2
    have hsub_int : normalizeSkills R ⊆ (normalizeSkills U ∩ normalizeSkills R) := by
      intro a ha
      exact List.mem_inter_iff.mpr ⟨hsub ha, ha⟩
    have hnd_int : (normalizeSkills U ∩ normalizeSkills R).Nodup :=
      (List.nodup_dedup _).inter _
    have hnd_req : (normalizeSkills R).Nodup := List.nodup_dedup _
    have hlen : (normalizeSkills U ∩ normalizeSkills R).length =
        (normalizeSkills R).length :=
      Nat.le_antisymm ((hnd_int.subperm hint_sub).length_le)
        ((hnd_req.subperm hsub_int).length_le)
    have hlen_pos : (0 : ℚ) < (normalizeSkills R).length := by
      have := List.length_pos.mpr hne
      exact_mod_cast this
    simp only [match_skills, hR, hne, if_neg, ne_eq, not_false_eq_true, if_pos]
    simp only [sortStrings_length, hlen]
    rw [div_self (ne_of_gt hlen_pos), one_mul]
    simpa using round2_intCast 100

/-- C9: the Domain Affinity Scorer returns 50.0 on an empty domain list, and
otherwise the fraction of domain labels appearing case-insensitively in the
requirements text times 100; the result always lies in [0, 100]. -/
theorem domain_match_score_spec :
    (∀ t : String, _domain_match_score [] t = 50) ∧
    (∀ (ds : List String) (t : String), ds ≠ [] →
      _domain_match_score ds t =
        ((ds.countP (fun d => pyIn (pyLower d) (pyLower t)) : ℚ) / ds.length) * 100) ∧
    (∀ (ds : List String) (t : String),
      0 ≤ _domain_match_score ds t ∧ _domain_match_score ds t ≤ 100) := by
  refine ⟨fun t => by simp [_domain_match_score],
    fun ds t h => by simp [_domain_match_score, h], ?_⟩
  intro ds t
  by_cases h : ds = []
  · simp [_domain_match_score, h]
    norm_num
  · have hl : 0 < (ds.length : ℚ) := by
      exact_mod_cast List.length_pos.mpr h
    have hm : (ds.countP (fun d => pyIn (pyLower d) (pyLower t))) ≤ ds.length :=
      List.countP_le_length _
    have hm2 : ((ds.countP (fun d => pyIn (pyLower d) (pyLower t)) : ℚ)) ≤ (ds.length : ℚ) := by
      exact_mod_cast hm
    constructor
    · simp only [_domain_match_score, h, if_neg, if_false]
      positivity
    · have hq : ((ds.countP (fun d => pyIn (pyLower d) (pyLower t)) : ℚ)) / (ds.length : ℚ) ≤ 1 :=
        (div_le_one hl).mpr hm2
      simp only [_domain_match_score, h, if_neg, if_false]
      nlinarith

/-- C10: `match_skills` is total on required-skill lists whose entries are all
empty or whitespace-only: the division by the number of distinct normalized
required skills is guarded, and the result is `([], 50.0)`. -/
theorem match_skills_whitespace_total :
    ∀ (U R : List String), (∀ s ∈ R, pyStrip s = "") →
      match_skills U R = ([], 50) := by
  intro U R h
  by_cases hR : R = []
  · simp [match_skills, hR]
  · have hfilter : R.filter (fun s => pyStripTruthy s) = [] := by
      rw [List.filter_eq_nil_iff]
      intro a ha
      simp [pyStripTruthy, h a ha]
    have hreq : normalizeSkills R = [] := by
      simp [normalizeSkills, hfilter]
    simp [match_skills, hR, hreq]
    constructor
    · rfl
    · simpa using round2_intCast 50

/-- C4: the Categorizer maps confidence > 80 to "High Priority",
60 ≤ confidence ≤ 80 to "Good Match" and confidence < 60 to "Stretch"; in
particular 80.0 and 60.0 map to "Good Match", 80.01 to "High Priority" and
59.99 to "Stretch". -/
theorem categorize_spec :
    (∀ c : ℚ, (c > 80 → _categorize c = "High Priority") ∧
      (60 ≤ c → c ≤ 80 → _categorize c = "Good Match") ∧
      (c < 60 → _categorize c = "Stretch")) ∧
    _categorize 80 = "Good Match" ∧
    _categorize 80.01 = "High Priority" ∧
    _categorize 60 = "Good Match" ∧
    _categorize 59.99 = "Stretch" := by
  refine ⟨fun c => ⟨?_, ?_, ?_⟩, by norm_num [_categorize], by norm_num [_categorize],
    by norm_num [_categorize], by norm_num [_categorize]⟩
  · intro h
    simp [_categorize, h]
  · intro h1 h2
    have h3 : ¬ c > 80 := not_lt.mpr h2
    simp [_categorize, h3, h1]
  · intro h
    have h1 : ¬ c > 80 := by linarith
    have h2 : ¬ c ≥ 60 := not_le.mpr h
    simp [_categorize, h1, h2]

/-- Witness for `categorize_spec`: each hypothesis-bearing clause applied at
a concrete confidence value. -/
theorem categorize_spec_witness :
    _categorize 90 = "High Priority" ∧ _categorize 70 = "Good Match" ∧
    _categorize 50 = "Stretch" :=
  ⟨(categorize_spec.1 90).1 (by norm_num),
   (categorize_spec.1 70).2.1 (by norm_num) (by norm_num),
   (categorize_spec.1 50).2.2 (by norm_num)⟩

/-- C5: `calculate_confidence(s, d, e)` equals `0.5*s + 0.3*d + 0.2*e`,
maps inputs in [0, 100] to a result in [0, 100], and increasing any single
input never decreases the result. -/
theorem calculate_confidence_spec :
    (∀ s d e : ℚ, calculate_confidence s d e = 0.5 * s + 0.3 * d + 0.2 * e) ∧
    (∀ s d e : ℚ, 0 ≤ s → s ≤ 100 → 0 ≤ d → d ≤ 100 → 0 ≤ e → e ≤ 100 →
      0 ≤ calculate_confidence s d e ∧ calculate_confidence s d e ≤ 100) ∧
    (∀ s s_ d e : ℚ, s ≤ s_ →
      calculate_confidence s d e ≤ calculate_confidence s_ d e) ∧
    (∀ s d d_ e : ℚ, d ≤ d_ →
      calculate_confidence s d e ≤ calculate_confidence s d_ e) ∧
    (∀ s d e e_ : ℚ, e ≤ e_ →
      calculate_confidence s d e ≤ calculate_confidence s d e_) := by
  refine ⟨fun s d e => rfl, ?_, ?_, ?_, ?_⟩
  · intro s d e hs0 hs1 hd0 hd1 he0 he1
    unfold calculate_confidence
    constructor <;> nlinarith
  · intro s s_ d e h
    unfold calculate_confidence
    nlinarith
  · intro s d d_ e h
    unfold calculate_confidence
    nlinarith
  · intro s d e e_ h
    unfold calculate_confidence
    nlinarith

/-- Witness for `calculate_confidence_spec`: the bounds and monotonicity
clauses applied at concrete scores. -/
theorem calculate_confidence_spec_witness :
    (0 ≤ calculate_confidence 50 50 50 ∧ calculate_confidence 50 50 50 ≤ 100) ∧
    calculate_confidence 40 50 50 ≤ calculate_confidence 60 50 50 ∧
    calculate_confidence 50 40 50 ≤ calculate_confidence 50 60 50 ∧
    calculate_confidence 50 50 40 ≤ calculate_confidence 50 50 60 :=
  ⟨calculate_confidence_spec.2.1 50 50 50 (by norm_num) (by norm_num)
      (by norm_num) (by norm_num) (by norm_num) (by norm_num),
   calculate_confidence_spec.2.2.1 40 60 50 50 (by norm_num),
   calculate_confidence_spec.2.2.2.1 50 40 60 50 (by norm_num),
   calculate_confidence_spec.2.2.2.2 50 50 40 60 (by norm_num)⟩

/-- C6: `get_reputation_score` always returns one of 95.0, 85.0, 75.0 and
60.0 by case-insensitive keyword containment with tiers checked in strict
1 → 2 → 3 order; a Tier-1 hit wins regardless of lower-tier hits, so
"Google Ventures-backed Startup" (which also contains Tier-3 keywords)
scores 95.0. -/
theorem get_reputation_score_spec :
    (∀ c : String, get_reputation_score c = 95 ∨ get_reputation_score c = 85 ∨
      get_reputation_score c = 75 ∨ get_reputation_score c = 60) ∧
    (∀ c : String,
      (TIER_1_KEYWORDS.any fun kw => pyIn kw (pyLower (pyStrip c))) = true →
      get_reputation_score c = 95) ∧
    get_reputation_score "Google Ventures-backed Startup" = 95 ∧
    ((TIER_3_KEYWORDS.any fun kw =>
      pyIn kw (pyLower (pyStrip "Google Ventures-backed Startup"))) = true) := by
  refine ⟨?_, ?_, by decide, by decide⟩
  · intro c
    simp only [get_reputation_score]
    split_ifs <;> simp
  · intro c h
    simp [get_reputation_score, h]

/-- Witness for `get_reputation_score_spec`: the Tier-1-wins clause applied
at a concrete company name. -/
theorem get_reputation_score_spec_witness :
    get_reputation_score "Google Ventures-backed Startup" = 95 ∧
    get_reputation_score "IIT Bombay" = 95 :=
  ⟨get_reputation_score_spec.2.2.1,
   get_reputation_score_spec.2.1 "IIT Bombay" (by decide)⟩

lemma categorize_not_manual (c : ℚ) : _categorize c ∉ MANUAL_STATUSES := by
  unfold _categorize
  split_ifs <;> decide

lemma scoreJob_idem (p : Profile) (j : Job) :
    scoreJob p (scoreJob p j) = scoreJob p j := by
  by_cases h : j.status ∈ MANUAL_STATUSES
  · have hst : (scoreJob p j).status = j.status := by simp [scoreJob, h]
    simp [scoreJob, hst, h]
    rfl
  · have hst : (scoreJob p j).status = _categorize (jobConfidence p j) := by
      simp [scoreJob, h]
    have hnm : _categorize (jobConfidence p j) ∉ MANUAL_STATUSES :=
      categorize_not_manual _
    simp [scoreJob, hst, h, hnm]
    exact ⟨rfl, rfl⟩

/-- C7: a second scoring pass immediately after a first one, with no change
to the profile or the jobs, reproduces the same scores and statuses. -/
theorem score_jobs_idempotent (p : Profile) (jobs : List Job) :
    score_jobs p (score_jobs p jobs).1 = score_jobs p jobs := by
  unfold score_jobs
  simp [List.map_map, Function.comp_def, scoreJob_idem]

/-- C1: a scoring pass preserves a manually set status while refreshing both
scores, and recategorizes any job whose status is not manual. -/
theorem scoring_preserves_manual_status (p : Profile) (jobs : List Job)
    (i : ℕ) (h : i < jobs.length) :
    ((jobs.get ⟨i, h⟩).status ∈ MANUAL_STATUSES →
      ((score_jobs p jobs).1.get ⟨i, by simpa [score_jobs] using h⟩).status =
        (jobs.get ⟨i, h⟩).status ∧
      ((score_jobs p jobs).1.get ⟨i, by simpa [score_jobs] using h⟩).confidence_score =
        round2 (jobConfidence p (jobs.get ⟨i, h⟩)) ∧
      ((score_jobs p jobs).1.get ⟨i, by simpa [score_jobs] using h⟩).reputation_score =
        round2 (get_reputation_score (jobs.get ⟨i, h⟩).company)) ∧
    ((jobs.get ⟨i, h⟩).status ∉ MANUAL_STATUSES →
      ((score_jobs p jobs).1.get ⟨i, by simpa [score_jobs] using h⟩).status =
        _categorize (jobConfidence p (jobs.get ⟨i, h⟩))) := by
  have hget : (score_jobs p jobs).1.get ⟨i, by simpa [score_jobs] using h⟩ =
      scoreJob p (jobs.get ⟨i, h⟩) := by
    simp [score_jobs]
  rw [hget]
  constructor
  · intro hm
    refine ⟨?_, rfl, rfl⟩
    show (if (jobs.get ⟨i, h⟩).status ∈ MANUAL_STATUSES then (jobs.get ⟨i, h⟩).status
      else _categorize (jobConfidence p (jobs.get ⟨i, h⟩))) = (jobs.get ⟨i, h⟩).status
    exact if_pos hm
  · intro hm
    show (if (jobs.get ⟨i, h⟩).status ∈ MANUAL_STATUSES then (jobs.get ⟨i, h⟩).status
      else _categorize (jobConfidence p (jobs.get ⟨i, h⟩))) =
        _categorize (jobConfidence p (jobs.get ⟨i, h⟩))
    exact if_neg hm

/-- The profile of the spec's end-to-end example. -/
def exampleProfile : Profile :=
  { skills := ["python", "sql"], domains := ["ai/ml"],
    experience_level := "Entry", preferred_roles := [] }

/-- The job of the spec's end-to-end example (company and initial state not
fixed by the example; a fresh listing is used). -/
def exampleJob : Job :=
  { company := "Acme Corp", role := "Intern - Data",
    required_skills := "python, sql, docker", status := "New",
    confidence_score := 0, reputation_score := 0 }

lemma example_skill_score :
    jobSkillScore exampleProfile exampleJob = 66.67 := by
  have huser : exampleProfile.skills.map pyLower = ["python", "sql"] := by decide
  have hreq : jobRequiredSkills exampleJob = ["python", "sql", "docker"] := by decide
  have hns_user : normalizeSkills ["python", "sql"] = ["python", "sql"] := by decide
  have hns_req : normalizeSkills ["python", "sql", "docker"] =
      ["python", "sql", "docker"] := by decide
  have hsort : sortStrings (["python", "sql"] ∩ ["python", "sql", "docker"]) =
      ["python", "sql"] := by decide
  have h1 : jobSkillScore exampleProfile exampleJob = round2 ((2 / 3 : ℚ) * 100) := by
    simp only [jobSkillScore, huser, hreq, match_skills, hns_user, hns_req, hsort]
    have hne : (["python", "sql", "docker"] : List String) ≠ [] := by decide
    rw [if_neg hne]
    norm_num [if_neg hne]
  rw [h1, round2]
  rw [show ((2 : ℚ) / 3 * 100 * 100 + 1 / 2) = 40003 / 6 by norm_num]
  rw [show ⌊(40003 : ℚ) / 6⌋ = 6667 by norm_num]
  norm_num

lemma example_domain_score :
    _domain_match_score ["ai/ml"] "python, sql, docker" = 0 := by
  have hcount : (["ai/ml"].countP
      (fun d => pyIn (pyLower d) (pyLower "python, sql, docker"))) = 0 := by decide
  simp only [_domain_match_score, hcount]
  norm_num

lemma example_confidence :
    jobConfidence exampleProfile exampleJob = 53.335 := by
  have hexp : _experience_match_score exampleProfile.experience_level
      exampleJob.role = 100 := by decide
  simp only [jobConfidence, example_skill_score, hexp]
  rw [show _domain_match_score exampleProfile.domains exampleJob.required_skills =
    _domain_match_score ["ai/ml"] "python, sql, docker" from rfl, example_domain_score]
  norm_num [calculate_confidence]

/-- C2 counterexample: on the spec's end-to-end example the code computes a
domain score of 0.0 (not 50.0), a stored confidence of 53.34 (not 68.34) and
assigns status "Stretch" (not "Good Match"). -/
theorem end_to_end_example_claim_false :
    ¬(_domain_match_score ["ai/ml"] "python, sql, docker" = 50 ∧
      (scoreJob exampleProfile exampleJob).confidence_score = 68.34 ∧
      (scoreJob exampleProfile exampleJob).status = "Good Match") := by
  rintro ⟨hd, -, -⟩
  rw [example_domain_score] at hd
  norm_num at hd

/-- C2 (amended): for the example profile and job the code computes
skill_score = 66.67, domain_score = 0.0, experience_score = 100.0, an
unrounded confidence of 53.335 stored as 53.34, and assigns status
"Stretch". -/
theorem end_to_end_example_amended :
    jobSkillScore exampleProfile exampleJob = 66.67 ∧
    _domain_match_score ["ai/ml"] "python, sql, docker" = 0 ∧
    _experience_match_score "Entry" "Intern - Data" = 100 ∧
    jobConfidence exampleProfile exampleJob = 53.335 ∧
    (scoreJob exampleProfile exampleJob).confidence_score = 53.34 ∧
    (scoreJob exampleProfile exampleJob).status = "Stretch" := by
  refine ⟨example_skill_score, example_domain_score, by decide, example_confidence, ?_, ?_⟩
  · show round2 (jobConfidence exampleProfile exampleJob) = 53.34
    rw [example_confidence, round2]
    rw [show ((53.335 : ℚ) * 100 + 1 / 2) = 5334 by norm_num]
    rw [show ⌊(5334 : ℚ)⌋ = 5334 by norm_num]
    norm_num
  · show (if exampleJob.status ∈ MANUAL_STATUSES then exampleJob.status
      else _categorize (jobConfidence exampleProfile exampleJob)) = "Stretch"
    rw [if_neg (by decide), example_confidence]
    norm_num [_categorize]

/-- C8: with no resume profile on record, `run_search` returns the
"no profile found" error and leaves the stored jobs untouched. -/
theorem run_search_no_profile (search : Profile → List Job → List Job × List Job)
    (db : DB) (h : db.profiles = []) :
    run_search search db =
      ({ error := some "No resume profile found. Please upload a resume first."
         new_jobs_count := none, scored_count := none }, db) := by
  unfold run_search _get_profile
  rw [h]
  rfl

/-- A profile-less database holding one job, used by the no-profile
witness. -/
def noProfileDB : DB :=
  { profiles := []
    jobs := [{ company := "Acme", role := "Intern", required_skills := "python",
               status := "New", confidence_score := 0, reputation_score := 0 }] }

/-- Witness for `run_search_no_profile`: a database with one stored job and
no profile. -/
theorem run_search_no_profile_witness :
    run_search (fun _ js => ([], js)) noProfileDB =
      ({ error := some "No resume profile found. Please upload a resume first."
         new_jobs_count := none, scored_count := none }, noProfileDB) :=
  run_search_no_profile _ _ rfl

/-- A profile used by the manual-status witness. -/
def manualProfile : Profile :=
  { skills := ["python"], domains := [], experience_level := "Entry",
    preferred_roles := [] }

/-- A job with a manually set status, used by the manual-status witness. -/
def manualJob : Job :=
  { company := "Acme", role := "Intern", required_skills := "python",
    status := "Applied", confidence_score := 0, reputation_score := 0 }

/-- Witness for `scoring_preserves_manual_status`: a job whose status is
"Applied" keeps it across a scoring pass. -/
theorem scoring_preserves_manual_status_witness :
    ("Applied" ∈ MANUAL_STATUSES) ∧
    ((score_jobs manualProfile [manualJob]).1.get
      ⟨0, by simp [score_jobs]⟩).status = "Applied" :=
  ⟨by decide,
   ((scoring_preserves_manual_status manualProfile [manualJob] 0
      (by norm_num)).1 (by decide)).1⟩

/-- Witness for `match_skills_spec`: concrete skill lists for each clause. -/
theorem match_skills_spec_witness :
    match_skills ["python"] [] = ([], 50) ∧
    List.Perm (match_skills ["python", "sql"] ["python", "docker"]).1
      (normalizeSkills ["python", "sql"] ∩ normalizeSkills ["python", "docker"]) ∧
    (match_skills ["python", "sql"] ["python"]).2 = 100 :=
  ⟨match_skills_spec.1 ["python"],
   ((match_skills_spec.2.1 ["python", "sql"] ["python", "docker"]) (by decide)).1,
   match_skills_spec.2.2 ["python", "sql"] ["python"] (by decide) (by decide)⟩

/-- Witness for `domain_match_score_spec`: the formula clause applied at a
concrete one-domain profile. -/
theorem domain_match_score_spec_witness :
    _domain_match_score ["ai/ml"] "ml systems" =
      ((["ai/ml"].countP (fun d => pyIn (pyLower d) (pyLower "ml systems")) : ℚ) /
        (["ai/ml"] : List String).length) * 100 :=
  domain_match_score_spec.2.1 ["ai/ml"] "ml systems" (by decide)

/-- Witness for `match_skills_whitespace_total`: a required list of one
whitespace-only and one empty entry. -/
theorem match_skills_whitespace_total_witness :
    match_skills ["python"] ["  ", ""] = ([], 50) :=
  match_skills_whitespace_total ["python"] ["  ", ""] (by decide)

end CareerAgent
